import Mathlib

/-!
Shallow embedding of the transcript logger and translation service of the
hotel-receptionist voice bot (src/src/bot_main.py and src/src/translator.py).

External effects are modelled explicitly:
* the OpenAI API calls made by `TranslationService` are oracles
  (`detectApi`, `translateApi`); a `none` result models the call raising an
  exception, a `some` result models the (already `.strip()`-ed) response text;
* `datetime` values are a record of calendar fields with the two renderings
  the code uses (`isoformat`, `strftime` patterns) defined over it;
* the file system is a total map from filename to current content; Python's
  `open(..., "a")`/`open(..., "w")` become `appendFile`/`writeFile`;
* a Python dict entry is a record; the three translation keys, present only
  sometimes, are `Option` fields (the dict stores `timestamp.isoformat()`;
  the model keeps the datetime and renders it at every site that reads
  `entry["timestamp"]`, which produces identical observable output);
* a `try`/`except` around an adapter call becomes a `match` on the adapter's
  `Option` result, the `none` branch being the `except` branch.
-/

namespace HotelBot

/-- Zero-pad the decimal rendering of `n` to width `w` (Python `%02d` etc.). -/
def padZeros (w n : Nat) : String :=
  let s := toString n
  String.mk (List.replicate (w - s.length) '0') ++ s

/-- Model of a Python `datetime.datetime` value: the calendar fields the
code's renderings depend on. -/
structure PyDateTime where
  year : Nat
  month : Nat
  day : Nat
  hour : Nat
  minute : Nat
  second : Nat
  microsecond : Nat
deriving DecidableEq, Repr

/-- Rendering `datetime.strftime("%H:%M:%S")`. -/
def PyDateTime.strftimeHMS (d : PyDateTime) : String :=
  padZeros 2 d.hour ++ ":" ++ padZeros 2 d.minute ++ ":" ++ padZeros 2 d.second

/-- Rendering `datetime.isoformat()`: `YYYY-MM-DDTHH:MM:SS`, with `.ffffff` appended
exactly when the microsecond field is nonzero. -/
def PyDateTime.isoformat (d : PyDateTime) : String :=
  padZeros 4 d.year ++ "-" ++ padZeros 2 d.month ++ "-" ++ padZeros 2 d.day ++ "T"
    ++ d.strftimeHMS
    ++ (if d.microsecond = 0 then "" else "." ++ padZeros 6 d.microsecond)

/-- Rendering `datetime.strftime("%Y%m%d_%H%M%S")`, used for auto-generated filenames. -/
def PyDateTime.strftimeYmdHMS (d : PyDateTime) : String :=
  padZeros 4 d.year ++ padZeros 2 d.month ++ padZeros 2 d.day ++ "_"
    ++ padZeros 2 d.hour ++ padZeros 2 d.minute ++ padZeros 2 d.second

/-- Chronological order on `datetime` values (lexicographic on the fields). -/
def dtLe (a b : PyDateTime) : Bool :=
  if a.year ≠ b.year then decide (a.year < b.year)
  else if a.month ≠ b.month then decide (a.month < b.month)
  else if a.day ≠ b.day then decide (a.day < b.day)
  else if a.hour ≠ b.hour then decide (a.hour < b.hour)
  else if a.minute ≠ b.minute then decide (a.minute < b.minute)
  else if a.second ≠ b.second then decide (a.second < b.second)
  else decide (a.microsecond ≤ b.microsecond)

/-- Python `str.strip()` default whitespace (the ASCII part: space, tab,
newline, carriage return, vertical tab, form feed). -/
def pyIsSpace (c : Char) : Bool :=
  c == ' ' || c == '\t' || c == '\n' || c == '\r' || c == '\x0b' || c == '\x0c'

/-- Characters of Python `text.strip()`: drop leading and trailing whitespace. -/
def pystrip (s : String) : List Char :=
  ((s.toList.dropWhile pyIsSpace).reverse.dropWhile pyIsSpace).reverse

/-- The result dictionary built by
`TranslationService._create_translation_result`. -/
structure TranslationResult where
  original : String
  translated : String
  source_language : String
  needs_translation : Bool
deriving DecidableEq, Repr

/-- Model of `TranslationService._create_translation_result`. -/
def createTranslationResult (original translated source_language : String)
    (needs_translation : Bool) : TranslationResult :=
  { original := original, translated := translated,
    source_language := source_language, needs_translation := needs_translation }

/-- Model of `TranslationService` (src/src/translator.py): the two OpenAI
calls are oracles; `none` models the call raising, `some s` models a
successful response whose stripped content is `s`. -/
structure TranslationService where
  detectApi : String → Option String
  translateApi : String → String → Option String

/-- Model of `TranslationService.detect_language`: short text short-circuits to
`"Unknown"`; an API failure is caught and also yields `"Unknown"`. -/
def TranslationService.detect_language (ts : TranslationService) (text : String) : String :=
  if text = "" ∨ (pystrip text).length < 3 then "Unknown"
  else
    match ts.detectApi text with
    | some language => language
    | none => "Unknown"

/-- Python `str.lower()` on one character (the ASCII range, which covers
the language names the code compares against). -/
def pyLowerChar (c : Char) : Char :=
  if 'A' ≤ c ∧ c ≤ 'Z' then Char.ofNat (c.toNat + 32) else c

/-- Python `language.lower()`. -/
def pyLower (s : String) : String := String.mk (s.toList.map pyLowerChar)

/-- Model of `TranslationService._should_translate`: false iff the language name is,
case-insensitively, `english` or `unknown`. -/
def shouldTranslate (language : String) : Bool :=
  !(pyLower language == "english" || pyLower language == "unknown")

/-- Model of `TranslationService.translate_to_english`: empty text short-circuits,
then the source language is detected if not given, then translation runs
only when `shouldTranslate`; a failing translation call is caught and falls
back to the original text. -/
def TranslationService.translate_to_english (ts : TranslationService) (text : String)
    (source_language : Option String) : TranslationResult :=
  if text = "" ∨ (pystrip text).length < 1 then
    createTranslationResult text text "Unknown" false
  else
    let src :=
      match source_language with
      | some s => s
      | none => ts.detect_language text
    if shouldTranslate src = false then
      createTranslationResult text text src false
    else
      match ts.translateApi text src with
      | some translated_text => createTranslationResult text translated_text src true
      | none => createTranslationResult text text src false

/-- The translation adapter as seen from the logger: a call that either
returns a result dictionary or raises (`none`). The concrete
`TranslationService.translate_to_english` never raises in this model (all
its failures are internal), but the logger's `try`/`except` admits any
raising adapter, so the logger is verified against this wider interface. -/
def Adapter : Type := String → Option TranslationResult

/-- One transcript entry as built by the logger: the dict keys
`timestamp`/`speaker`/`message` always present, the three translation keys
optional. The dict stores `timestamp.isoformat()`; the model keeps the
datetime and renders it wherever the code reads `entry["timestamp"]`. -/
structure Entry where
  timestamp : PyDateTime
  speaker : String
  message : String
  translated : Option String
  source_language : Option String
  needs_translation : Option Bool
deriving DecidableEq, Repr

/-- The file system: current content of each filename ("a" mode appends to
it, "w" mode replaces it). -/
def FileSys : Type := String → String

/-- Overwrite one file (`open(name, "w")` followed by the writes). -/
def writeFile (fs : FileSys) (name content : String) : FileSys :=
  fun n => if n = name then content else fs n

/-- Append to one file (`open(name, "a")` followed by one write). -/
def appendFile (fs : FileSys) (name line : String) : FileSys :=
  writeFile fs name (fs name ++ line)

/-- State of a `TranscriptLogger` object plus the file system it writes to. -/
structure LoggerState where
  filename : String
  base_filename : String
  transcript : List Entry
  enable_translation : Bool
  translator : Option Adapter
  files : FileSys

/-- Python `filename.rsplit(".", 1)[0]`: everything before the last dot,
or the whole string when there is no dot. -/
def pyRsplitDotHead (s : String) : String :=
  match (s.toList.reverse.dropWhile (fun c => c ≠ '.')) with
  | [] => s
  | _ :: rest => String.mk rest.reverse

/-- Model of `TranscriptLogger.__init__` together with `_initialize_translator`.
`translatorInit` models the `TranslationService()` construction: `some a`
when it succeeds (yielding adapter `a`), `none` when it raises — in which
case the `except` branch turns translation off and stores no translator,
and construction still returns normally. -/
def initLogger (filename : Option String) (now : PyDateTime)
    (enable_translation : Bool) (translatorInit : Option Adapter)
    (fs : FileSys) : LoggerState :=
  let fname :=
    match filename with
    | some f => f
    | none => "hotel_conversation_" ++ now.strftimeYmdHMS ++ ".txt"
  let init :=
    if enable_translation then
      match translatorInit with
      | some a => (true, some a)
      | none => (false, (none : Option Adapter))
    else (false, (none : Option Adapter))
  { filename := fname, base_filename := pyRsplitDotHead fname, transcript := [],
    enable_translation := init.1, translator := init.2, files := fs }

/-- Model of `TranscriptLogger._create_entry`: the base dict, no translation keys. -/
def createEntry (speaker message : String) (timestamp : PyDateTime) : Entry :=
  { timestamp := timestamp, speaker := speaker, message := message,
    translated := none, source_language := none, needs_translation := none }

/-- Model of `TranscriptLogger._add_translation_to_entry`, as a function of the two
configuration fields it reads. Skips when translation is off or the speaker
is not USER/RECEPTIONIST; otherwise calls the adapter inside `try`: a raise
— either from the call itself or from `self.translator` being `None` —
lands in the `except` branch, which fills the fallback fields. -/
def translationStep (enable_translation : Bool) (translator : Option Adapter)
    (entry : Entry) (speaker message : String) : Entry :=
  if !enable_translation || !(speaker == "USER" || speaker == "RECEPTIONIST") then
    entry
  else
    match translator with
    | some tr =>
      match tr message with
      | some r =>
        { entry with translated := some r.translated,
                     source_language := some r.source_language,
                     needs_translation := some r.needs_translation }
      | none =>
        { entry with translated := some message,
                     source_language := some "Unknown",
                     needs_translation := some false }
    | none =>
      { entry with translated := some message,
                   source_language := some "Unknown",
                   needs_translation := some false }

/-- The line `_write_entry_to_file` appends: `[HH:MM:SS] SPEAKER: message`. -/
def writeEntryLine (entry : Entry) (timestamp : PyDateTime) : String :=
  "[" ++ timestamp.strftimeHMS ++ "] " ++ entry.speaker ++ ": " ++ entry.message ++ "\n"

/-- Model of `TranscriptLogger._write_entry_to_file`: one append to the main file. -/
def writeEntryToFile (st : LoggerState) (entry : Entry) (timestamp : PyDateTime) :
    LoggerState :=
  { st with files := appendFile st.files st.filename (writeEntryLine entry timestamp) }

/-- Model of `TranscriptLogger.add_entry`: default the timestamp to the clock, build
the entry, enrich it, append it to the in-memory list, append one line to
the main file. `now` is the value `datetime.now()` would return. -/
def addEntry (st : LoggerState) (speaker message : String)
    (timestamp : Option PyDateTime) (now : PyDateTime) : LoggerState :=
  let ts := timestamp.getD now
  let entry := createEntry speaker message ts
  let entry := translationStep st.enable_translation st.translator entry speaker message
  let st1 := { st with transcript := st.transcript ++ [entry] }
  writeEntryToFile st1 entry ts

/-- Concatenation of a list of strings in order: the content produced by a
loop of sequential `f.write` calls. -/
def strConcat : List String → String
  | [] => ""
  | s :: rest => s ++ strConcat rest

/-- The line `_save_original_transcript` writes per entry: note it renders
`entry["timestamp"]`, i.e. the full isoformat string, not `%H:%M:%S`. -/
def originalLine (e : Entry) : String :=
  "[" ++ e.timestamp.isoformat ++ "] " ++ e.speaker ++ ": " ++ e.message ++ "\n"

/-- Model of `TranscriptLogger._save_original_transcript`: truncate and rewrite the
main file from the in-memory list; returns its path. -/
def saveOriginalTranscript (st : LoggerState) : String × LoggerState :=
  (st.filename,
    { st with files :=
        writeFile st.files st.filename (strConcat (st.transcript.map originalLine)) })


/-- The `"=" * 80` banner line. -/
def eqBanner : String := String.mk (List.replicate 80 '=')

/-- The fixed header `_save_bilingual_transcript` writes before the blocks. -/
def bilingualHeader : String :=
  eqBanner ++ "\n" ++ "BILINGUAL TRANSCRIPT - Original and English Translation\n"
    ++ eqBanner ++ "\n\n"

/-- Model of `TranscriptLogger._format_bilingual_entry`: header and `Original:` line
always; `English:`/`(Detected:)` lines only when the entry has a
`translated` key and `needs_translation` is (present and) true; trailing
blank line. -/
def formatBilingualEntry (e : Entry) : String :=
  let formatted := "[" ++ e.timestamp.isoformat ++ "] " ++ e.speaker ++ ":\n"
  let formatted := formatted ++ "  Original: " ++ e.message ++ "\n"
  let formatted :=
    if e.translated.isSome && e.needs_translation.getD false then
      formatted ++ "  English:  " ++ e.translated.getD "" ++ "\n"
        ++ "  (Detected: " ++ e.source_language.getD "Unknown" ++ ")\n"
    else formatted
  formatted ++ "\n"

/-- Model of `TranscriptLogger._save_bilingual_transcript`: nothing when translation
is disabled; otherwise write banner plus one block per entry to
`<base>_bilingual.txt` and return that path. -/
def saveBilingualTranscript (st : LoggerState) : Option String × LoggerState :=
  if !st.enable_translation then (none, st)
  else
    let bfile := st.base_filename ++ "_bilingual.txt"
    let content := bilingualHeader ++ strConcat (st.transcript.map formatBilingualEntry)
    (some bfile, { st with files := writeFile st.files bfile content })

/-- Model of `TranscriptLogger.save_full_transcript`: original rewrite, then the
bilingual export; returns both paths (the second `none` when disabled). -/
def saveFullTranscript (st : LoggerState) : (String × Option String) × LoggerState :=
  let original := saveOriginalTranscript st
  let bilingual := saveBilingualTranscript original.2
  ((original.1, bilingual.1), bilingual.2)

/-- Lower-case hexadecimal digit, for JSON `\u00XX` escapes. -/
def hexDigit (n : Nat) : Char :=
  if n < 10 then Char.ofNat (48 + n) else Char.ofNat (97 + (n - 10))

/-- JSON escaping of one character as `json.dump` with `ensure_ascii=False`
performs it: named escapes for the usual controls, `\u00XX` for the other
control characters, everything else literal. -/
def jsonEscapeChar (c : Char) : String :=
  if c = '"' then "\\\""
  else if c = '\\' then "\\\\"
  else if c = '\n' then "\\n"
  else if c = '\t' then "\\t"
  else if c = '\r' then "\\r"
  else if c = '\x08' then "\\b"
  else if c = '\x0c' then "\\f"
  else if c.toNat < 32 then
    String.mk ['\\', 'u', '0', '0', hexDigit (c.toNat / 16), hexDigit (c.toNat % 16)]
  else String.singleton c

/-- A JSON string literal for `s`. -/
def jsonStr (s : String) : String :=
  "\"" ++ String.join (s.toList.map jsonEscapeChar) ++ "\""

/-- A JSON boolean literal. -/
def jsonBool (b : Bool) : String := if b then "true" else "false"

/-- The key/value pairs of one entry in dict insertion order: the three
base keys, then each translation key exactly when present. -/
def entryFields (e : Entry) : List (String × String) :=
  [("timestamp", jsonStr e.timestamp.isoformat),
   ("speaker", jsonStr e.speaker),
   ("message", jsonStr e.message)]
  ++ (match e.translated with
      | some t => [("translated", jsonStr t)]
      | none => [])
  ++ (match e.source_language with
      | some l => [("source_language", jsonStr l)]
      | none => [])
  ++ (match e.needs_translation with
      | some b => [("needs_translation", jsonBool b)]
      | none => [])

/-- One entry object as `json.dump(..., indent=2)` renders it at list
depth 1: keys at 4 spaces, closing brace at 2 spaces. -/
def entryJson (e : Entry) : String :=
  "\x7b\n"
    ++ String.intercalate ",\n"
        ((entryFields e).map (fun kv => "    " ++ jsonStr kv.1 ++ ": " ++ kv.2))
    ++ "\n  \x7d"

/-- The whole transcript array as `json.dump(transcript, indent=2,
ensure_ascii=False)` renders it. -/
def transcriptJson (entries : List Entry) : String :=
  match entries with
  | [] => "[]"
  | _ =>
    "[\n" ++ String.intercalate ",\n" (entries.map (fun e => "  " ++ entryJson e)) ++ "\n]"

/-- Model of `TranscriptLogger.save_json_transcript`: rewrite `<base>.json` with the
serialized in-memory list; returns its path. -/
def saveJsonTranscript (st : LoggerState) : String × LoggerState :=
  let jfile := st.base_filename ++ ".json"
  (jfile, { st with files := writeFile st.files jfile (transcriptJson st.transcript) })

/-- One `add_entry` invocation: its arguments plus the clock value
`datetime.now()` would produce during that call. -/
structure Call where
  speaker : String
  message : String
  tstamp : Option PyDateTime
  now : PyDateTime

/-- The timestamp `add_entry` effectively records for a call: the explicit
argument when given, the clock otherwise. -/
def Call.effTime (c : Call) : PyDateTime := c.tstamp.getD c.now

/-- Run a sequence of `add_entry` calls against a logger state. -/
def runCalls (st : LoggerState) (calls : List Call) : LoggerState :=
  calls.foldl (fun s c => addEntry s c.speaker c.message c.tstamp c.now) st

/-- The entry a call produces, given the logger's translation
configuration (which `add_entry` never changes). -/
def callEntry (enable_translation : Bool) (translator : Option Adapter)
    (c : Call) : Entry :=
  translationStep enable_translation translator
    (createEntry c.speaker c.message c.effTime) c.speaker c.message

/-- The line a call's incremental append writes to the main file. -/
def callAppendLine (enable_translation : Bool) (translator : Option Adapter)
    (c : Call) : String :=
  writeEntryLine (callEntry enable_translation translator c) c.effTime

/-! Structural lemmas about `addEntry` and `runCalls`. -/

lemma translationStep_timestamp (en : Bool) (tr : Option Adapter) (e : Entry)
    (sp m : String) : (translationStep en tr e sp m).timestamp = e.timestamp := by
  unfold translationStep
  split
  · rfl
  · cases tr with
    | none => rfl
    | some a => cases h : a m <;> simp [h]

lemma translationStep_speaker (en : Bool) (tr : Option Adapter) (e : Entry)
    (sp m : String) : (translationStep en tr e sp m).speaker = e.speaker := by
  unfold translationStep
  split
  · rfl
  · cases tr with
    | none => rfl
    | some a => cases h : a m <;> simp [h]

lemma translationStep_message (en : Bool) (tr : Option Adapter) (e : Entry)
    (sp m : String) : (translationStep en tr e sp m).message = e.message := by
  unfold translationStep
  split
  · rfl
  · cases tr with
    | none => rfl
    | some a => cases h : a m <;> simp [h]

lemma callEntry_timestamp (en : Bool) (tr : Option Adapter) (c : Call) :
    (callEntry en tr c).timestamp = c.effTime :=
  translationStep_timestamp en tr _ c.speaker c.message

lemma callEntry_speaker (en : Bool) (tr : Option Adapter) (c : Call) :
    (callEntry en tr c).speaker = c.speaker :=
  translationStep_speaker en tr _ c.speaker c.message

lemma callEntry_message (en : Bool) (tr : Option Adapter) (c : Call) :
    (callEntry en tr c).message = c.message :=
  translationStep_message en tr _ c.speaker c.message

lemma callAppendLine_eq (en : Bool) (tr : Option Adapter) (c : Call) :
    callAppendLine en tr c
      = "[" ++ c.effTime.strftimeHMS ++ "] " ++ c.speaker ++ ": " ++ c.message ++ "\n" := by
  unfold callAppendLine writeEntryLine
  rw [callEntry_speaker, callEntry_message]

lemma originalLine_callEntry (en : Bool) (tr : Option Adapter) (c : Call) :
    originalLine (callEntry en tr c)
      = "[" ++ c.effTime.isoformat ++ "] " ++ c.speaker ++ ": " ++ c.message ++ "\n" := by
  unfold originalLine
  rw [callEntry_timestamp, callEntry_speaker, callEntry_message]

@[simp] lemma addEntry_filename (st : LoggerState) (sp m : String)
    (ts : Option PyDateTime) (now : PyDateTime) :
    (addEntry st sp m ts now).filename = st.filename := rfl

@[simp] lemma addEntry_base_filename (st : LoggerState) (sp m : String)
    (ts : Option PyDateTime) (now : PyDateTime) :
    (addEntry st sp m ts now).base_filename = st.base_filename := rfl

@[simp] lemma addEntry_enable (st : LoggerState) (sp m : String)
    (ts : Option PyDateTime) (now : PyDateTime) :
    (addEntry st sp m ts now).enable_translation = st.enable_translation := rfl

@[simp] lemma addEntry_translator (st : LoggerState) (sp m : String)
    (ts : Option PyDateTime) (now : PyDateTime) :
    (addEntry st sp m ts now).translator = st.translator := rfl

@[simp] lemma addEntry_call_transcript (st : LoggerState) (c : Call) :
    (addEntry st c.speaker c.message c.tstamp c.now).transcript
      = st.transcript ++ [callEntry st.enable_translation st.translator c] := rfl

@[simp] lemma addEntry_call_files (st : LoggerState) (c : Call) (n : String) :
    (addEntry st c.speaker c.message c.tstamp c.now).files n
      = if n = st.filename
        then st.files n ++ callAppendLine st.enable_translation st.translator c
        else st.files n := by
  have hfiles : (addEntry st c.speaker c.message c.tstamp c.now).files
      = fun x => if x = st.filename
          then st.files st.filename ++ callAppendLine st.enable_translation st.translator c
          else st.files x := rfl
  rw [hfiles]
  split_ifs with h <;> simp [h]

lemma runCalls_cons (st : LoggerState) (c : Call) (cs : List Call) :
    runCalls st (c :: cs)
      = runCalls (addEntry st c.speaker c.message c.tstamp c.now) cs := rfl

lemma runCalls_enable (st : LoggerState) (cs : List Call) :
    (runCalls st cs).enable_translation = st.enable_translation := by
  induction cs generalizing st with
  | nil => rfl
  | cons c cs ih => rw [runCalls_cons, ih, addEntry_enable]

lemma runCalls_translator (st : LoggerState) (cs : List Call) :
    (runCalls st cs).translator = st.translator := by
  induction cs generalizing st with
  | nil => rfl
  | cons c cs ih => rw [runCalls_cons, ih, addEntry_translator]

lemma runCalls_filename (st : LoggerState) (cs : List Call) :
    (runCalls st cs).filename = st.filename := by
  induction cs generalizing st with
  | nil => rfl
  | cons c cs ih => rw [runCalls_cons, ih, addEntry_filename]

lemma runCalls_base_filename (st : LoggerState) (cs : List Call) :
    (runCalls st cs).base_filename = st.base_filename := by
  induction cs generalizing st with
  | nil => rfl
  | cons c cs ih => rw [runCalls_cons, ih, addEntry_base_filename]

lemma runCalls_transcript (st : LoggerState) (cs : List Call) :
    (runCalls st cs).transcript
      = st.transcript ++ cs.map (callEntry st.enable_translation st.translator) := by
  induction cs generalizing st with
  | nil => simp [runCalls]
  | cons c cs ih =>
    rw [runCalls_cons, ih]
    simp only [addEntry_call_transcript, addEntry_enable, addEntry_translator,
      List.map_cons, List.append_assoc, List.singleton_append]

lemma runCalls_files (st : LoggerState) (cs : List Call) (n : String) :
    (runCalls st cs).files n
      = if n = st.filename
        then st.files n
          ++ strConcat (cs.map (callAppendLine st.enable_translation st.translator))
        else st.files n := by
  induction cs generalizing st with
  | nil =>
    show st.files n = _
    split
    · exact (String.append_empty _).symm
    · rfl
  | cons c cs ih =>
    rw [runCalls_cons, ih]
    simp only [addEntry_call_files, addEntry_filename, addEntry_enable, addEntry_translator,
      List.map_cons, strConcat]
    split
    · rw [String.append_assoc]
    · rfl

lemma translationStep_skip (en : Bool) (tr : Option Adapter) (e : Entry) (sp m : String)
    (h : en = false ∨ (sp ≠ "USER" ∧ sp ≠ "RECEPTIONIST")) :
    translationStep en tr e sp m = e := by
  have hc : (!en || !(sp == "USER" || sp == "RECEPTIONIST")) = true := by
    rcases h with h | ⟨h1, h2⟩
    · simp [h]
    · simp [h1, h2]
  unfold translationStep
  rw [if_pos hc]

lemma translationStep_active (en : Bool) (tr : Option Adapter) (e : Entry) (sp m : String)
    (hen : en = true) (hsp : sp = "USER" ∨ sp = "RECEPTIONIST") :
    ∃ t l b, translationStep en tr e sp m
      = { e with translated := some t, source_language := some l,
                 needs_translation := some b } := by
  have hc : (!en || !(sp == "USER" || sp == "RECEPTIONIST")) = false := by
    rcases hsp with h | h <;> simp [hen, h]
  unfold translationStep
  rw [if_neg (show ¬(!en || !(sp == "USER" || sp == "RECEPTIONIST")) = true by
    rw [hc]; exact Bool.false_ne_true)]
  cases tr with
  | none => exact ⟨m, "Unknown", false, rfl⟩
  | some a =>
    cases h : a m with
    | none => exact ⟨m, "Unknown", false, by simp [h]⟩
    | some r => exact ⟨r.translated, r.source_language, r.needs_translation, by simp [h]⟩

lemma translationStep_raise (en : Bool) (tr : Option Adapter) (a : Adapter) (e : Entry)
    (sp m : String) (hen : en = true) (hsp : sp = "USER" ∨ sp = "RECEPTIONIST")
    (htr : tr = some a) (hraise : a m = none) :
    translationStep en tr e sp m
      = { e with translated := some m, source_language := some "Unknown",
                 needs_translation := some false } := by
  have hc : (!en || !(sp == "USER" || sp == "RECEPTIONIST")) = false := by
    rcases hsp with h | h <;> simp [hen, h]
  unfold translationStep
  rw [if_neg (show ¬(!en || !(sp == "USER" || sp == "RECEPTIONIST")) = true by
    rw [hc]; exact Bool.false_ne_true), htr]
  simp [hraise]

lemma writeFile_writeFile (fs : FileSys) (n c1 c2 : String) :
    writeFile (writeFile fs n c1) n c2 = writeFile fs n c2 := by
  funext x
  unfold writeFile
  split_ifs <;> rfl

lemma writeFile_idem_pair (fs : FileSys) (f o b bl : String) :
    writeFile (writeFile (writeFile (writeFile fs f o) b bl) f o) b bl
      = writeFile (writeFile fs f o) b bl := by
  funext x
  unfold writeFile
  split_ifs <;> rfl

/-! The claim theorems. -/

/-- C1: for every sequence of `add_entry` calls on one logger, the
in-memory transcript has length equal to the number of calls, holds the
call-produced entries in call order, and `save_json_transcript` writes to
`<base>.json` exactly the JSON serialization of that in-memory sequence
(fields `timestamp`, `speaker`, `message` and the optional translation
fields where present). -/
theorem c1_transcript_accumulation_and_json_export
    (filename : Option String) (now0 : PyDateTime) (enable : Bool)
    (translatorInit : Option Adapter) (fs : FileSys) (calls : List Call) :
    let st0 := initLogger filename now0 enable translatorInit fs
    let st := runCalls st0 calls
    let saved := saveJsonTranscript st
    st.transcript.length = calls.length ∧
    st.transcript = calls.map (callEntry st0.enable_translation st0.translator) ∧
    saved.2.files saved.1 = transcriptJson st.transcript := by
  intro st0 st saved
  have h0 : st0.transcript = [] := rfl
  have htr : st.transcript = calls.map (callEntry st0.enable_translation st0.translator) := by
    have h := runCalls_transcript st0 calls
    rw [h0] at h
    simpa using h
  refine ⟨?_, htr, ?_⟩
  · rw [htr, List.length_map]
  · show writeFile st.files (st.base_filename ++ ".json") (transcriptJson st.transcript)
        (st.base_filename ++ ".json") = transcriptJson st.transcript
    unfold writeFile
    rw [if_pos rfl]

/-- C3: each `add_entry` call appends exactly one entry; a SYSTEM entry
never carries the translation fields; a USER/RECEPTIONIST entry carries
all three exactly when translation is enabled at the time of the call; and
in every produced entry the three fields are all absent or all present. -/
theorem c3_translation_gating (st : LoggerState) (sp m : String)
    (ts : Option PyDateTime) (now : PyDateTime) :
    let e := translationStep st.enable_translation st.translator
      (createEntry sp m (ts.getD now)) sp m
    (addEntry st sp m ts now).transcript = st.transcript ++ [e] ∧
    (sp = "SYSTEM" →
      e.translated = none ∧ e.source_language = none ∧ e.needs_translation = none) ∧
    ((sp = "USER" ∨ sp = "RECEPTIONIST") →
      ((e.translated.isSome = true ∧ e.source_language.isSome = true ∧
        e.needs_translation.isSome = true) ↔ st.enable_translation = true)) ∧
    (e.translated.isSome = e.source_language.isSome ∧
     e.translated.isSome = e.needs_translation.isSome) := by
  intro e
  refine ⟨rfl, ?_, ?_, ?_⟩
  · intro hsys
    have hskip : e = createEntry sp m (ts.getD now) :=
      translationStep_skip _ _ _ _ _ (Or.inr ⟨by simp [hsys], by simp [hsys]⟩)
    rw [hskip]
    exact ⟨rfl, rfl, rfl⟩
  · intro hsp
    constructor
    · intro hfields
      by_contra hne
      have hen : st.enable_translation = false := by
        cases h : st.enable_translation
        · rfl
        · exact absurd h hne
      have hskip : e = createEntry sp m (ts.getD now) :=
        translationStep_skip _ _ _ _ _ (Or.inl hen)
      rw [hskip] at hfields
      simp [createEntry] at hfields
    · intro hen
      obtain ⟨t, l, b, hb⟩ :=
        translationStep_active st.enable_translation st.translator
          (createEntry sp m (ts.getD now)) sp m hen hsp
      show (e.translated.isSome = true ∧ _ ∧ _)
      rw [show e = _ from hb]
      exact ⟨rfl, rfl, rfl⟩
  · by_cases hcond : st.enable_translation = true ∧ (sp = "USER" ∨ sp = "RECEPTIONIST")
    · obtain ⟨t, l, b, hb⟩ :=
        translationStep_active st.enable_translation st.translator
          (createEntry sp m (ts.getD now)) sp m hcond.1 hcond.2
      rw [show e = _ from hb]
      exact ⟨rfl, rfl⟩
    · have hskip : e = createEntry sp m (ts.getD now) := by
        refine translationStep_skip _ _ _ _ _ ?_
        by_cases hen : st.enable_translation = true
        · right
          constructor
          · intro hu
            exact hcond ⟨hen, Or.inl hu⟩
          · intro hr
            exact hcond ⟨hen, Or.inr hr⟩
        · left
          cases h : st.enable_translation
          · rfl
          · exact absurd h hen
      rw [hskip]
      exact ⟨rfl, rfl⟩

/-- C4: with translation enabled and a USER or RECEPTIONIST speaker, when
the adapter's `translate_to_english` raises for the message, `add_entry`
still returns (the exception is absorbed by the `except` branch, so the
model stays a total function) and appends an entry whose fallback fields
are `translated = message`, `source_language = "Unknown"`,
`needs_translation = false`. -/
theorem c4_adapter_failure_fallback (st : LoggerState) (sp m : String)
    (ts : Option PyDateTime) (now : PyDateTime) (a : Adapter)
    (hen : st.enable_translation = true) (htr : st.translator = some a)
    (hraise : a m = none) (hsp : sp = "USER" ∨ sp = "RECEPTIONIST") :
    (addEntry st sp m ts now).transcript
      = st.transcript
        ++ [{ createEntry sp m (ts.getD now) with
              translated := some m, source_language := some "Unknown",
              needs_translation := some false }] := by
  show st.transcript ++ [translationStep st.enable_translation st.translator
      (createEntry sp m (ts.getD now)) sp m] = _
  rw [translationStep_raise st.enable_translation st.translator a _ sp m hen hsp htr hraise]

/-- Concrete adapter whose calls always raise, for the C4 witness. -/
def raisingAdapter : Adapter := fun _ => none

/-- Concrete timestamp used by witnesses and counterexamples. -/
def dtA : PyDateTime :=
  { year := 2024, month := 5, day := 1, hour := 14, minute := 30, second := 5,
    microsecond := 0 }

/-- Concrete logger state with translation enabled and a raising adapter. -/
def stRaising : LoggerState :=
  { filename := "t.txt", base_filename := "t", transcript := [],
    enable_translation := true, translator := some raisingAdapter,
    files := fun _ => "" }

/-- Witness for C4 at a concrete state, speaker and message. -/
theorem c4_adapter_failure_fallback_witness :
    (addEntry stRaising "USER" "Hola" none dtA).transcript
      = [{ createEntry "USER" "Hola" dtA with
            translated := some "Hola", source_language := some "Unknown",
            needs_translation := some false }] := by
  have h := c4_adapter_failure_fallback stRaising "USER" "Hola" none dtA raisingAdapter
    rfl rfl rfl (Or.inl rfl)
  simpa using h

/-- C6: constructing the logger with translation requested while
`TranslationService()` raises (modelled by `translatorInit = none`) still
returns normally — the model is a total function — and yields a logger
with translation disabled, no translator, and an empty transcript. -/
theorem c6_construction_downgrades_on_translator_failure
    (filename : Option String) (now : PyDateTime) (fs : FileSys) :
    (initLogger filename now true none fs).enable_translation = false ∧
    (initLogger filename now true none fs).translator = none ∧
    (initLogger filename now true none fs).transcript = [] :=
  ⟨rfl, rfl, rfl⟩

/-- C7: with no intervening `add_entry`, a second `save_full_transcript`
returns the same paths and leaves every file byte-identical to the first
save, and likewise for `save_json_transcript`: re-saving the unchanged
in-memory sequence reproduces the whole result state. -/
theorem c7_save_operations_idempotent (st : LoggerState) :
    saveFullTranscript (saveFullTranscript st).2 = saveFullTranscript st ∧
    saveJsonTranscript (saveJsonTranscript st).2 = saveJsonTranscript st := by
  obtain ⟨f, b, trn, en, trl, fls⟩ := st
  constructor
  · cases en with
    | false =>
      show ((f, none), _) = ((f, none), _)
      simp only [saveFullTranscript, saveOriginalTranscript, saveBilingualTranscript]
      simp [writeFile_writeFile]
    | true =>
      simp only [saveFullTranscript, saveOriginalTranscript, saveBilingualTranscript]
      simp [writeFile_idem_pair]
  · show (b ++ ".json",
        { filename := f, base_filename := b, transcript := trn,
          enable_translation := en, translator := trl,
          files := writeFile (writeFile fls (b ++ ".json") (transcriptJson trn))
            (b ++ ".json") (transcriptJson trn) })
      = saveJsonTranscript _
    rw [writeFile_writeFile]
    rfl

lemma formatBilingualEntry_no_translation (e : Entry)
    (h : ¬ e.needs_translation = some true) :
    formatBilingualEntry e
      = "[" ++ e.timestamp.isoformat ++ "] " ++ e.speaker ++ ":\n"
        ++ "  Original: " ++ e.message ++ "\n" ++ "\n" := by
  have hg : e.needs_translation.getD false = false := by
    cases hnt : e.needs_translation with
    | none => rfl
    | some b =>
      cases b
      · rfl
      · exact absurd hnt h
  unfold formatBilingualEntry
  rw [hg]
  simp

lemma formatBilingualEntry_with_translation (e : Entry)
    (hn : e.needs_translation = some true) (ht : e.translated.isSome = true) :
    formatBilingualEntry e
      = "[" ++ e.timestamp.isoformat ++ "] " ++ e.speaker ++ ":\n"
        ++ "  Original: " ++ e.message ++ "\n"
        ++ "  English:  " ++ e.translated.getD "" ++ "\n"
        ++ "  (Detected: " ++ e.source_language.getD "Unknown" ++ ")\n" ++ "\n" := by
  unfold formatBilingualEntry
  rw [hn, ht]
  simp

/-- C8: in the bilingual export of `save_full_transcript`, an entry whose
`needs_translation` is false or absent is rendered as a block with only its
`Original:` line, an entry with `needs_translation = true` (which, in every
state the code produces, also carries the other two fields — hypothesis
`hinv`) gets the `English:` and `(Detected:)` lines too; the file is the
fixed banner followed by the blocks (each block ends in a blank line), and
the bilingual path is `none` exactly when translation is disabled. -/
theorem c8_bilingual_export_shape (st : LoggerState)
    (hinv : ∀ e ∈ st.transcript,
      e.needs_translation = some true → e.translated.isSome = true) :
    (st.enable_translation = false → (saveFullTranscript st).1.2 = none) ∧
    (st.enable_translation = true →
      (saveFullTranscript st).1.2 = some (st.base_filename ++ "_bilingual.txt") ∧
      (saveFullTranscript st).2.files (st.base_filename ++ "_bilingual.txt")
        = bilingualHeader ++ strConcat (st.transcript.map formatBilingualEntry)) ∧
    (∀ e ∈ st.transcript,
      (¬ e.needs_translation = some true →
        formatBilingualEntry e
          = "[" ++ e.timestamp.isoformat ++ "] " ++ e.speaker ++ ":\n"
            ++ "  Original: " ++ e.message ++ "\n" ++ "\n") ∧
      (e.needs_translation = some true →
        formatBilingualEntry e
          = "[" ++ e.timestamp.isoformat ++ "] " ++ e.speaker ++ ":\n"
            ++ "  Original: " ++ e.message ++ "\n"
            ++ "  English:  " ++ e.translated.getD "" ++ "\n"
            ++ "  (Detected: " ++ e.source_language.getD "Unknown" ++ ")\n" ++ "\n")) := by
  obtain ⟨f, b, trn, en, trl, fls⟩ := st
  refine ⟨?_, ?_, ?_⟩
  · intro hen
    cases en with
    | false => rfl
    | true => exact Bool.noConfusion hen
  · intro hen
    cases en with
    | false => exact Bool.noConfusion hen
    | true =>
      refine ⟨rfl, ?_⟩
      show writeFile (writeFile fls f (strConcat (trn.map originalLine)))
        (b ++ "_bilingual.txt")
        (bilingualHeader ++ strConcat (trn.map formatBilingualEntry))
        (b ++ "_bilingual.txt") = _
      unfold writeFile
      rw [if_pos rfl]
  · intro e he
    exact ⟨fun h => formatBilingualEntry_no_translation e h,
           fun h => formatBilingualEntry_with_translation e h (hinv e he h)⟩

/-- Concrete SYSTEM entry with no translation fields, for the C8 witness. -/
def entryPlain : Entry :=
  { timestamp := dtA, speaker := "SYSTEM", message := "start",
    translated := none, source_language := none, needs_translation := none }

/-- Concrete USER entry carrying translation fields, for the C8 witness. -/
def entryTranslated : Entry :=
  { timestamp := dtA, speaker := "USER", message := "Hola",
    translated := some "Hello", source_language := some "Spanish",
    needs_translation := some true }

/-- Concrete translation-enabled logger state, for the C8 witness. -/
def stBilingual : LoggerState :=
  { filename := "t.txt", base_filename := "t",
    transcript := [entryPlain, entryTranslated],
    enable_translation := true, translator := some raisingAdapter,
    files := fun _ => "" }

/-- Witness for C8 at a concrete two-entry state. -/
theorem c8_bilingual_export_shape_witness :
    (∀ e ∈ stBilingual.transcript,
      e.needs_translation = some true → e.translated.isSome = true) ∧
    (saveFullTranscript stBilingual).1.2
      = some (stBilingual.base_filename ++ "_bilingual.txt") ∧
    (saveFullTranscript stBilingual).2.files
        (stBilingual.base_filename ++ "_bilingual.txt")
      = bilingualHeader
        ++ strConcat (stBilingual.transcript.map formatBilingualEntry) := by
  have h := c8_bilingual_export_shape stBilingual (by decide)
  exact ⟨by decide, (h.2.1 rfl).1, (h.2.1 rfl).2⟩

/-- C2 (amended): every line appended incrementally by `add_entry` has the
format `[HH:MM:SS] SPEAKER: message`; the truncate-and-rewrite performed by
`save_full_transcript` writes one line per entry, in the same order and
with the same speaker and message, but rendering the timestamp as the full
ISO string — so the rewritten line is not identical to the appended one. -/
theorem c2_append_and_rewrite_line_formats (filename : Option String)
    (now0 : PyDateTime) (enable : Bool) (translatorInit : Option Adapter)
    (fs : FileSys) (calls : List Call) :
    let st0 := initLogger filename now0 enable translatorInit fs
    let st := runCalls st0 calls
    st.files st0.filename
      = fs st0.filename
        ++ strConcat (calls.map (fun c =>
            "[" ++ c.effTime.strftimeHMS ++ "] " ++ c.speaker ++ ": "
              ++ c.message ++ "\n")) ∧
    (saveOriginalTranscript st).1 = st0.filename ∧
    (saveOriginalTranscript st).2.files st0.filename
      = strConcat (calls.map (fun c =>
          "[" ++ c.effTime.isoformat ++ "] " ++ c.speaker ++ ": "
            ++ c.message ++ "\n")) := by
  intro st0 st
  have hfn : st.filename = st0.filename := runCalls_filename st0 calls
  have hline : callAppendLine st0.enable_translation st0.translator
      = fun c => "[" ++ c.effTime.strftimeHMS ++ "] " ++ c.speaker ++ ": "
          ++ c.message ++ "\n" :=
    funext (fun c => callAppendLine_eq _ _ c)
  have htr : st.transcript = calls.map (callEntry st0.enable_translation st0.translator) := by
    have h := runCalls_transcript st0 calls
    simpa using h
  refine ⟨?_, hfn, ?_⟩
  · have h := runCalls_files st0 calls st0.filename
    rw [if_pos rfl] at h
    rw [h, hline]
    rfl
  · show writeFile st.files st.filename (strConcat (st.transcript.map originalLine))
        st0.filename = _
    unfold writeFile
    rw [if_pos hfn.symm, htr, List.map_map]
    have hcomp : originalLine ∘ callEntry st0.enable_translation st0.translator
        = fun c => "[" ++ c.effTime.isoformat ++ "] " ++ c.speaker ++ ": "
            ++ c.message ++ "\n" :=
      funext (fun c => originalLine_callEntry _ _ c)
    rw [hcomp]

/-- Counterexample to C2 as stated: after one `add_entry` with a concrete
timestamp, the incremental append wrote `[14:30:05] USER: hi`, but the
truncate-and-rewrite of the same file produces `[2024-05-01T14:30:05]
USER: hi` — the rewritten line is not identical to the appended line. -/
theorem c2_rewrite_line_differs_counterexample :
    (runCalls (initLogger (some "t.txt") dtA false none (fun _ => ""))
        [⟨"USER", "hi", some dtA, dtA⟩]).files "t.txt"
      = "[14:30:05] USER: hi\n" ∧
    (saveOriginalTranscript
        (runCalls (initLogger (some "t.txt") dtA false none (fun _ => ""))
          [⟨"USER", "hi", some dtA, dtA⟩])).2.files "t.txt"
      = "[2024-05-01T14:30:05] USER: hi\n" ∧
    ("[14:30:05] USER: hi\n" : String) ≠ "[2024-05-01T14:30:05] USER: hi\n" := by
  refine ⟨by decide, by decide, by decide⟩

/-- Non-decreasing (chronological) order of a list of datetimes. -/
def dtChain : List PyDateTime → Bool
  | [] => true
  | [_] => true
  | a :: b :: rest => dtLe a b && dtChain (b :: rest)

/-- C9 (amended): entries are appended in call order carrying exactly the
supplied (or clock-default) timestamps, so whenever that effective
timestamp sequence is non-decreasing — in particular whenever timestamps
are left to the non-decreasing clock — the in-memory timestamps are
monotonically non-decreasing. An explicit out-of-order timestamp argument
is stored as given (see the counterexample). -/
theorem c9_timestamps_follow_calls (filename : Option String)
    (now0 : PyDateTime) (enable : Bool) (translatorInit : Option Adapter)
    (fs : FileSys) (calls : List Call) :
    let st := runCalls (initLogger filename now0 enable translatorInit fs) calls
    st.transcript.map Entry.timestamp = calls.map Call.effTime ∧
    (dtChain (calls.map Call.effTime) = true →
      dtChain (st.transcript.map Entry.timestamp) = true) := by
  intro st
  have htr : st.transcript
      = calls.map (callEntry
          (initLogger filename now0 enable translatorInit fs).enable_translation
          (initLogger filename now0 enable translatorInit fs).translator) := by
    have h := runCalls_transcript (initLogger filename now0 enable translatorInit fs) calls
    simpa using h
  have hts : st.transcript.map Entry.timestamp = calls.map Call.effTime := by
    rw [htr, List.map_map]
    have hcomp : Entry.timestamp ∘ callEntry
        (initLogger filename now0 enable translatorInit fs).enable_translation
        (initLogger filename now0 enable translatorInit fs).translator
        = Call.effTime :=
      funext (fun c => callEntry_timestamp _ _ c)
    rw [hcomp]
  exact ⟨hts, fun h => hts ▸ h⟩

/-- A second concrete timestamp, earlier in the day than `dtA`. -/
def dtB : PyDateTime :=
  { year := 2024, month := 5, day := 1, hour := 9, minute := 0, second := 0,
    microsecond := 0 }

/-- Counterexample to C9 as stated: two `add_entry` calls supplying
explicit timestamps 14:30:05 then 09:00:00 leave the in-memory timestamp
sequence decreasing — the code stores explicit timestamps as given. -/
theorem c9_explicit_timestamps_not_monotone_counterexample :
    dtChain
        ((runCalls (initLogger (some "t.txt") dtA false none (fun _ => ""))
            [⟨"USER", "a", some dtA, dtA⟩, ⟨"USER", "b", some dtB, dtA⟩]).transcript.map
          Entry.timestamp) = false := by
  decide

/-- List of calls with non-decreasing explicit timestamps, for the C9
witness. -/
def callsMono : List Call :=
  [⟨"USER", "a", some dtB, dtB⟩, ⟨"USER", "b", some dtA, dtB⟩]

/-- Witness for C9 (amended) on a concrete non-decreasing call sequence. -/
theorem c9_timestamps_follow_calls_witness :
    dtChain (callsMono.map Call.effTime) = true ∧
    dtChain
      ((runCalls (initLogger (some "t.txt") dtB false none (fun _ => ""))
          callsMono).transcript.map Entry.timestamp) = true := by
  have h := c9_timestamps_follow_calls (some "t.txt") dtB false none (fun _ => "") callsMono
  exact ⟨by decide, h.2 (by decide)⟩

lemma shouldTranslate_false_iff (l : String) :
    shouldTranslate l = false ↔ (pyLower l = "english" ∨ pyLower l = "unknown") := by
  unfold shouldTranslate
  simp
  tauto

lemma translate_else (ts : TranslationService) (text : String)
    (src : Option String) (h1 : ¬(text = "" ∨ (pystrip text).length < 1)) :
    ts.translate_to_english text src
      = (let src2 := match src with
           | some s => s
           | none => ts.detect_language text
         if shouldTranslate src2 = false then
           createTranslationResult text text src2 false
         else
           match ts.translateApi text src2 with
           | some translated_text => createTranslationResult text translated_text src2 true
           | none => createTranslationResult text text src2 false) := by
  unfold TranslationService.translate_to_english
  rw [if_neg h1]

/-- C5 (amended): in every `translate_to_english` result, a source language
that is case-insensitively english or unknown forces
`needs_translation = false`; `needs_translation = true` occurs only for
other languages; whenever `needs_translation` is false the translated text
equals the original; and when the translation API call cannot fail the
originally claimed equivalence holds — `needs_translation = false` exactly
for english/unknown. (Unconditionally, the equivalence fails: a failing
API call yields `needs_translation = false` with a non-english language —
see the counterexample.) -/
theorem c5_needs_translation_contract (ts : TranslationService) (text : String)
    (src : Option String) :
    ((pyLower (ts.translate_to_english text src).source_language = "english" ∨
        pyLower (ts.translate_to_english text src).source_language = "unknown") →
      (ts.translate_to_english text src).needs_translation = false) ∧
    ((ts.translate_to_english text src).needs_translation = true →
      ¬(pyLower (ts.translate_to_english text src).source_language = "english" ∨
        pyLower (ts.translate_to_english text src).source_language = "unknown")) ∧
    ((ts.translate_to_english text src).needs_translation = false →
      (ts.translate_to_english text src).translated = text) ∧
    ((∀ s, (ts.translateApi text s).isSome = true) →
      ((ts.translate_to_english text src).needs_translation = false ↔
        (pyLower (ts.translate_to_english text src).source_language = "english" ∨
         pyLower (ts.translate_to_english text src).source_language = "unknown"))) := by
  by_cases h1 : text = "" ∨ (pystrip text).length < 1
  · have hr : ts.translate_to_english text src
        = createTranslationResult text text "Unknown" false := by
      unfold TranslationService.translate_to_english
      rw [if_pos h1]
    rw [hr]
    refine ⟨fun _ => rfl, fun h => Bool.noConfusion h, fun _ => rfl,
      fun _ => ⟨fun _ => Or.inr (show pyLower "Unknown" = "unknown" from by decide),
        fun _ => rfl⟩⟩
  · simp only [translate_else ts text src h1]
    generalize (match src with
      | some s => s
      | none => ts.detect_language text) = src2
    by_cases h2 : shouldTranslate src2 = false
    · rw [if_pos h2]
      have hlang := (shouldTranslate_false_iff src2).mp h2
      exact ⟨fun _ => rfl, fun h => Bool.noConfusion h, fun _ => rfl,
        fun _ => ⟨fun _ => hlang, fun _ => rfl⟩⟩
    · rw [if_neg h2]
      cases hapi : ts.translateApi text src2 with
      | some t =>
        have hnl : ¬(pyLower src2 = "english" ∨ pyLower src2 = "unknown") :=
          fun h => h2 ((shouldTranslate_false_iff src2).mpr h)
        exact ⟨fun h => absurd ((shouldTranslate_false_iff src2).mpr h) h2,
          fun _ => hnl,
          fun h => Bool.noConfusion h,
          fun _ => ⟨fun h => Bool.noConfusion h, fun h => absurd h hnl⟩⟩
      | none =>
        refine ⟨fun _ => rfl, fun h => Bool.noConfusion h, fun _ => rfl,
          fun hAPI => absurd (hAPI src2) ?_⟩
        rw [hapi]
        decide

/-- Service whose OpenAI calls always fail, for the C5 counterexample. -/
def failingService : TranslationService :=
  { detectApi := fun _ => none, translateApi := fun _ _ => none }

/-- Counterexample to C5 as stated: when the translation API raises for a
Spanish text, the result has `needs_translation = false` although the
source language (`Spanish`) is neither english nor unknown, so the claimed
"exactly when" equivalence fails. -/
theorem c5_failed_call_breaks_equivalence_counterexample :
    ¬((failingService.translate_to_english "Hola" (some "Spanish")).needs_translation
          = false ↔
        (pyLower (failingService.translate_to_english "Hola"
            (some "Spanish")).source_language = "english" ∨
         pyLower (failingService.translate_to_english "Hola"
            (some "Spanish")).source_language = "unknown")) := by
  decide

/-- Service whose OpenAI calls always succeed, for witnesses. -/
def okService : TranslationService :=
  { detectApi := fun _ => some "Spanish", translateApi := fun _ _ => some "Hello" }

/-- Witness for C5 (amended): with a never-failing translation API, the
equivalence holds at a concrete input. -/
theorem c5_needs_translation_contract_witness :
    (okService.translate_to_english "Hola" none).needs_translation = false ↔
      (pyLower (okService.translate_to_english "Hola" none).source_language = "english" ∨
       pyLower (okService.translate_to_english "Hola" none).source_language = "unknown") := by
  have h := c5_needs_translation_contract okService "Hola" none
  exact h.2.2.2 (fun s => rfl)

/-- C10: for any text whose stripped length is below 3 (empty and
whitespace-only included), `translate_to_english` without an explicit
source language returns pass-through fallback values — and since the
theorem holds for every pair of oracles, the result does not depend on
either API, i.e. no translation call is made. -/
theorem c10_short_text_short_circuits (ts : TranslationService) (text : String)
    (h : (pystrip text).length < 3) :
    ts.translate_to_english text none
      = createTranslationResult text text "Unknown" false := by
  by_cases h1 : text = "" ∨ (pystrip text).length < 1
  · unfold TranslationService.translate_to_english
    rw [if_pos h1]
  · have hdet : ts.detect_language text = "Unknown" := by
      unfold TranslationService.detect_language
      rw [if_pos (Or.inr h)]
    simp only [translate_else ts text none h1]
    rw [hdet, if_pos (by decide : shouldTranslate "Unknown" = false)]

/-- Witness for C10 at the two-character text `"hi"`, with a service whose
oracles would detect French and translate to a nonempty string — the
result is still the fallback. -/
theorem c10_short_text_short_circuits_witness :
    (pystrip "hi").length < 3 ∧
    okService.translate_to_english "hi" none
      = createTranslationResult "hi" "hi" "Unknown" false :=
  ⟨by decide, c10_short_text_short_circuits okService "hi" (by decide)⟩

/-- Witness for C3 at a concrete state with translation enabled: the
SYSTEM entry gets no translation fields, the USER entry gets them. -/
theorem c3_translation_gating_witness :
    (callEntry stRaising.enable_translation stRaising.translator
        ⟨"SYSTEM", "Session ended", none, dtA⟩).translated = none ∧
    (callEntry stRaising.enable_translation stRaising.translator
        ⟨"USER", "Hola", none, dtA⟩).translated.isSome = true := by
  have h1 := c3_translation_gating stRaising "SYSTEM" "Session ended" none dtA
  have h2 := c3_translation_gating stRaising "USER" "Hola" none dtA
  exact ⟨(h1.2.1 rfl).1, ((h2.2.2.1 (Or.inl rfl)).mpr rfl).1⟩

end HotelBot
